import Mathlib

/-!
Verification development for the cycle-aware-wnba repository.

Numeric computation is modelled over `ℚ`; data frames are modelled as lists
of records; calls into external statistical libraries (glmnet,
randomForest) are modelled as abstract probability functions, since their
fitting behaviour is outside the repository.  Each definition is a direct
shallow embedding of the corresponding R or JavaScript source.
-/

namespace CycleAwareWNBA

/-! ## Ensemble training and prediction (unnamed/part_007, train/predict) -/

/-- Trained ensemble model object.  The `lasso` and `rf` components are the
fitted glmnet and randomForest models; they are external library objects,
modelled as abstract probability functions over prepared feature rows. -/
structure EnsembleModel (φ : Type) where
  lasso : φ → ℚ
  rf : φ → ℚ

/-- One row of the output data frame built by `predict_ensemble`. -/
structure PredictionRow where
  ensemble_probability : ℚ
  lasso_probability : ℚ
  rf_probability : ℚ
  prediction : String
  deriving DecidableEq

/-- Embedding of `predict_ensemble` from unnamed/part_007: prepare features
for the new data via `prepare_cycle_features`, get per-row probabilities
from both fitted models on the same prepared feature rows, and combine them
as the simple average `(lasso_pred + rf_pred) / 2`. -/
def predict_ensemble {δ φ : Type} (model : EnsembleModel φ)
    (prepare_cycle_features : δ → List φ) (newdata : δ) : List PredictionRow :=
  (prepare_cycle_features newdata).map (fun x =>
    let lasso_pred := model.lasso x
    let rf_pred := model.rf x
    let ensemble_pred := (lasso_pred + rf_pred) / 2
    { ensemble_probability := ensemble_pred
      lasso_probability := lasso_pred
      rf_probability := rf_pred
      prediction := if ensemble_pred ≥ 1 / 2 then "High Impact" else "Low Impact" })

/-! ## Input validation of predict_cycle_phase
(cycle-aware-wnba/modeling/predict_cycle_phase.R) -/

/-- Required columns checked by `predict_cycle_phase`. -/
def required_cols : List String := ["athlete_id", "game_date", "cycle_day", "menstrual_phase"]

/-- Embedding of the column-presence check at the top of
`predict_cycle_phase`: if any required column is absent from the column
names of `athlete_data`, stop with a message listing the missing columns
(`setdiff(required_cols, colnames(athlete_data))`); otherwise continue. -/
def predict_cycle_phase_check (colnames : List String) : Except String Unit :=
  if required_cols.all (fun c => decide (c ∈ colnames)) then Except.ok ()
  else Except.error ("Missing required columns in athlete_data: "
    ++ String.intercalate ", " (required_cols.filter (fun c => decide (c ∉ colnames))))

/-! ## Phase assignment routines (unnamed/part_003 `getStage`,
predict_cycle_phase.R rule-based case_when, unnamed/part_011
`Ovulytics.determineCyclePhase`) -/

/-- One entry of the `stages` array of CycleStageTracker (unnamed/part_003).
The source fields are `name`, `start`, `end`, `joke`; `end` is a reserved
word here, so the day bounds are called `startDay` and `endDay`. -/
structure Stage where
  name : String
  startDay : ℤ
  endDay : ℤ
  joke : String
  deriving DecidableEq

/-- The `stages` array of unnamed/part_003. -/
def stages : List Stage :=
  [{ name := "Menstruation", startDay := 1, endDay := 5,
     joke := "Bleeding hearts club: now recruiting." },
   { name := "Follicular", startDay := 6, endDay := 13,
     joke := "Egg prepping: brunch vibes only." },
   { name := "Ovulation", startDay := 14, endDay := 16,
     joke := "Egg drop soup: spicy edition." },
   { name := "Luteal", startDay := 17, endDay := 28,
     joke := "Cramp Olympics: gold medal guaranteed." }]

/-- Embedding of `getStage` from unnamed/part_003: return the first stage
whose day range contains `day`, or the Unknown fallback. -/
def getStage (day : ℤ) : Stage :=
  match stages.find? (fun s => decide (s.startDay ≤ day ∧ day ≤ s.endDay)) with
  | some s => s
  | none => { name := "Unknown", startDay := 0, endDay := 0,
              joke := "Cycle mysteries abound..." }

/-- Embedding of the rule-based phase estimation `case_when` inside
`predict_cycle_phase` (predict_cycle_phase.R): `days_since_period` is
`cycle_day` with `NA` replaced by 28, then fixed thresholds assign the
phase, with an `irregular` fallback past day 28. -/
def ruleBasedPhase (cycle_day : Option ℤ) : String :=
  let days_since_period : ℤ := cycle_day.getD 28
  if days_since_period ≤ 5 then "menstrual"
  else if days_since_period ≤ 13 then "follicular"
  else if days_since_period ≤ 17 then "ovulatory"
  else if days_since_period ≤ 28 then "luteal"
  else "irregular"

namespace Ovulytics

/-- Embedding of `Ovulytics.determineCyclePhase` (unnamed/part_011): the
satirical phase determination over a standard 28-day cycle model.  Both of
the first two branches return the follicular label. -/
def determineCyclePhase (cycleDay : ℤ) : String :=
  if cycleDay ≤ 5 then "follicular"
  else if cycleDay ≤ 13 then "follicular"
  else if cycleDay ≤ 16 then "ovulation"
  else "luteal"

end Ovulytics

/-! ## Cycle day computation (R/feature_engineering.R versus the modular
pipeline variants in unnamed/part_004, unnamed/part_009 model_formula.R and
cycle-aware-wnba/R/cycle_aware_wnba_pipeline.R) -/

/-- Embedding of the cycle_day mutate of `engineer_features` in
R/feature_engineering.R: `as.numeric(game_date - cycle_start_date)`, the
plain day difference with no modulo. -/
def cycle_day_fe (game_date cycle_start_date : ℤ) : ℤ := game_date - cycle_start_date

/-- Embedding of the cycle_day mutate of the modular pipeline variants:
`as.numeric(difftime(game_date, cycle_start, units = "days")) %%
menstruation_duration`.  The R operator `%%` with a positive right operand
returns the representative in `[0, m)`, which is `Int.emod`. -/
def cycle_day_mod (game_date cycle_start menstruation_duration : ℤ) : ℤ :=
  (game_date - cycle_start) % menstruation_duration

/-! ## Normalization and imputation of missing values
(R/feature_engineering.R uses caret medianImpute; the modular variants use
`ifelse(is.na(x), mean(x, na.rm = TRUE), x)`).  A column is a list of
optional rationals, `none` standing for `NA`. -/

/-- Mean of the non-missing values of a column, as `mean(x, na.rm = TRUE)`. -/
def mean_narm (xs : List (Option ℚ)) : ℚ :=
  (xs.filterMap id).sum / ((xs.filterMap id).length : ℚ)

/-- Median of the non-missing values of a column, as
`median(x, na.rm = TRUE)` (the statistic caret medianImpute fills with):
the middle of the sorted values, or the average of the two middles for an
even count. -/
def median_narm (xs : List (Option ℚ)) : ℚ :=
  let ys := (xs.filterMap id).insertionSort (· ≤ ·)
  let n := ys.length
  if n % 2 = 1 then ys.getD (n / 2) 0
  else (ys.getD (n / 2 - 1) 0 + ys.getD (n / 2) 0) / 2

/-- Embedding of the mean imputation step of the modular variants:
`ifelse(is.na(x), mean(x, na.rm = TRUE), x)` applied to one column. -/
def impute_mean (xs : List (Option ℚ)) : List ℚ :=
  xs.map (fun v => v.getD (mean_narm xs))

/-- Embedding of the median imputation step of R/feature_engineering.R
(`preProcess(df[num_cols], method = "medianImpute")` fitted on the same
columns it fills): every `NA` becomes the column median of the non-missing
values. -/
def impute_median (xs : List (Option ℚ)) : List ℚ :=
  xs.map (fun v => v.getD (median_narm xs))

/-- Demonstration column for the imputation claims: three observed values
0, 0, 3 and one missing value, so the non-missing mean is 1 while the
non-missing median is 0. -/
def demo_column : List (Option ℚ) := [some 0, some 0, some 3, none]

/-! ## Lagged HRV feature (modular variants:
`arrange(player_id, game_date); group_by(player_id); mutate(lagged_hrv =
lag(hrv, 1))`; R/feature_engineering.R instead: `rollmean(HRV, k = 3,
fill = NA, align = "right")` within each player group). -/

/-- One per-player-per-game record carrying the fields the lag step reads. -/
structure GameRow where
  player_id : ℕ
  game_date : ℤ
  hrv : ℚ
  deriving DecidableEq, Inhabited

/-- Accumulator update: remember the hrv of the row just processed as the
latest value for its player. -/
def updateLast (last : ℕ → Option ℚ) (r : GameRow) : ℕ → Option ℚ :=
  fun p => if p = r.player_id then some r.hrv else last p

/-- Worker for the grouped one-step lag: each row receives the hrv of the
most recent earlier row of the same player, `none` when there is no such
row.  This is dplyr `group_by(player_id)` followed by `lag(hrv, 1)`. -/
def lagged_hrv_aux : List GameRow → (ℕ → Option ℚ) → List (Option ℚ)
  | [], _ => []
  | r :: rest, last => last r.player_id :: lagged_hrv_aux rest (updateLast last r)

/-- Embedding of the lagged_hrv mutate of the modular variants. -/
def lagged_hrv (rows : List GameRow) : List (Option ℚ) :=
  lagged_hrv_aux rows (fun _ => none)

/-- Row order produced by `arrange(player_id, game_date)`: player id first,
then game date. -/
def rowOrder (a b : GameRow) : Prop :=
  a.player_id < b.player_id ∨ (a.player_id = b.player_id ∧ a.game_date ≤ b.game_date)

instance : DecidableRel rowOrder := fun a b =>
  inferInstanceAs (Decidable (a.player_id < b.player_id ∨
    (a.player_id = b.player_id ∧ a.game_date ≤ b.game_date)))

/-- Embedding of the lagged_HRV mutate of R/feature_engineering.R for one
player group: `rollmean(HRV, k = 3, fill = NA, align = "right")`, the
right-aligned rolling mean of the last three values, `NA` on the first two
rows. -/
def lagged_HRV_roll (hrvs : List ℚ) : List (Option ℚ) :=
  (List.range hrvs.length).map (fun i =>
    if 2 ≤ i then some ((hrvs.getD (i - 2) 0 + hrvs.getD (i - 1) 0 + hrvs.getD i 0) / 3)
    else none)

/-- Demonstration hrv series of a single player across three games. -/
def demo_hrv : List ℚ := [10, 20, 40]

/-- Demonstration rows of two players, sorted by player then date. -/
def demo_rows : List GameRow :=
  [{ player_id := 1, game_date := 0, hrv := 10 },
   { player_id := 1, game_date := 1, hrv := 20 },
   { player_id := 2, game_date := 0, hrv := 30 }]

/-! ## Satirical Node modules (src/modules/MoodMeeter.js, CrampCast and
Ovulytics in unnamed/part_011, MoodSwingMeter in unnamed/part_012,
src/q4trackr.js).  Each `Math.random()` draw is an explicit parameter
ranging over `[0, 1)`. -/

/-- Rounding performed by `Number(x.toFixed(1))` for the nonnegative values
arising here: one decimal digit, ties rounded up. -/
def roundTo1 (x : ℚ) : ℚ := (⌊x * 10 + 1 / 2⌋ : ℚ) / 10

namespace MoodMeeter

/-- Embedding of `generateSatiricalMoodScore`: `4 + Math.random() * 4`. -/
def generateSatiricalMoodScore (r : ℚ) : ℚ := 4 + r * 4

/-- The `factor` entries of the `mockSentiments` array, in order. -/
def mockSentimentFactors : List ℚ := [4 / 5, 13 / 10, 9 / 10, 1]

/-- Embedding of `analyzeSatiricalSocialMedia`: pick
`mockSentiments[Math.floor(Math.random() * mockSentiments.length)]` and
return its factor. -/
def analyzeSatiricalSocialMedia (r : ℚ) : ℚ :=
  mockSentimentFactors.getD (⌊r * 4⌋).toNat 0

/-- Embedding of `calculateGamePressure`: 1.1 on weekends, 0.95 on
weekdays. -/
def calculateGamePressure (isWeekend : Bool) : ℚ :=
  if isWeekend then 11 / 10 else 19 / 20

/-- Embedding of the `moodIndex` computed and returned by
`MoodMeeter.analyzeMood`:
`Math.min(10, Math.max(1, baselineScore * socialMediaFactor *
gamePressureFactor))`, reported through `Number(moodIndex.toFixed(1))`. -/
def analyzeMood_moodIndex (r1 r2 : ℚ) (isWeekend : Bool) : ℚ :=
  roundTo1 (min 10 (max 1
    (generateSatiricalMoodScore r1 * analyzeSatiricalSocialMedia r2 *
      calculateGamePressure isWeekend)))

end MoodMeeter

namespace CrampCast

/-- Embedding of `assessSatiricalHydration`: base hydration
`0.6 + Math.random() * 0.4`, minus 0.1 if a coffee draw exceeds 0.5, minus
`Math.random() * 0.05` of social media time, clamped into `[0, 1]`. -/
def assessSatiricalHydration (r1 r2 r3 : ℚ) : ℚ :=
  max 0 (min 1 (3 / 5 + r1 * (2 / 5) + (if r2 > 1 / 2 then -(1 / 10) else 0) - r3 * (1 / 20)))

/-- Embedding of `calculateActivityImpact`: weekday factor 0.8 before day 5
of the week and 1.2 otherwise, times training intensity
`0.5 + Math.random() * 0.5`. -/
def calculateActivityImpact (day : ℕ) (r : ℚ) : ℚ :=
  (if day < 5 then 4 / 5 else 6 / 5) * (1 / 2 + r * (1 / 2))

/-- Embedding of `assessGameStress`: base stress 0.5, plus 0.3 for a
playoff draw above 0.8 and 0.2 for a rivalry draw above 0.7, capped at 1. -/
def assessGameStress (r1 r2 : ℚ) : ℚ :=
  min 1 (1 / 2 + (if r1 > 4 / 5 then 3 / 10 else 0) + (if r2 > 7 / 10 then 1 / 5 else 0))

/-- Embedding of `calculateRecoveryFactor`: sleep quality
`0.6 + Math.random() * 0.4` plus `Math.floor(Math.random() * 3)` rest days
worth 0.1 each, all divided by 1.2. -/
def calculateRecoveryFactor (r1 r2 : ℚ) : ℚ :=
  (3 / 5 + r1 * (2 / 5) + ((⌊r2 * 3⌋).toNat : ℚ) * (1 / 10)) / (6 / 5)

/-- Embedding of `calculateCrampProbability`: the weighted combination of
inverted hydration (weight 0.3), activity (weight 0.4), stress (weight 0.2)
and inverted recovery (weight 0.1), capped at 1. -/
def calculateCrampProbability (hydration activity stress recovery : ℚ) : ℚ :=
  min 1 ((1 - hydration) * (3 / 10) + activity * (2 / 5) + stress * (1 / 5) +
    (1 - recovery) * (1 / 10))

/-- Embedding of the `probability` field returned by
`CrampCast.predictCramps`: `Number((crampProbability * 100).toFixed(1))`. -/
def predictCramps_probability (day : ℕ) (h1 h2 h3 a1 s1 s2 rc1 rc2 : ℚ) : ℚ :=
  roundTo1 (calculateCrampProbability (assessSatiricalHydration h1 h2 h3)
    (calculateActivityImpact day a1) (assessGameStress s1 s2)
    (calculateRecoveryFactor rc1 rc2) * 100)

end CrampCast

namespace MoodSwingMeter

/-- The five factor weights of `MoodSwingMeter.factors`: sleep 0.3,
social 0.25, schedule 0.2, nutrition 0.15, weather 0.1. -/
def moodSwingFactorWeights : List ℚ := [3 / 10, 1 / 4, 1 / 5, 3 / 20, 1 / 10]

/-- Embedding of `calculateVolatilityScore`: the weight-by-weight sum of
the five factor values, capped at 1. -/
def calculateVolatilityScore (sleep social schedule nutrition weather : ℚ) : ℚ :=
  min 1 (sleep * (3 / 10) + social * (1 / 4) + schedule * (1 / 5) +
    nutrition * (3 / 20) + weather * (1 / 10))

/-- Embedding of `determineSwingLevel`: Stable up to 0.3, Moderate up to
0.7, Turbulent beyond. -/
def determineSwingLevel (score : ℚ) : String :=
  if score ≤ 3 / 10 then "Stable"
  else if score ≤ 7 / 10 then "Moderate"
  else "Turbulent"

end MoodSwingMeter

/-! ## q4trackr.js generateQ4Prediction -/

/-- The eight fixed prediction strings of `generateQ4Prediction`. -/
def q4Predictions : List String :=
  ["Clutch performance likely. Snacks advised.",
   "Expect stellar defense. Hydration recommended.",
   "Q4 dominance predicted. Emotional support snacks ready.",
   "Peak performance window. Refs beware of intensity.",
   "Balanced gameplay expected. Zen mode activated.",
   "Energy dip possible. Bench support advised.",
   "Mood volatility detected. Expect entertaining gameplay.",
   "Optimal performance phase. Watch for record-breaking plays."]

/-- The mood-swing summand of the combined score: 3 for Turbulent, 2 for
Moderate, 1 otherwise. -/
def moodSwingLevelScore (level : String) : ℚ :=
  if level = "Turbulent" then 3 else if level = "Moderate" then 2 else 1

/-- Embedding of the array index computed by `generateQ4Prediction`:
`Math.floor(combinedScore) % predictions.length`, with the JavaScript
truncating remainder `Int.tmod`. -/
def generateQ4Prediction_index (moodIndex crampSeverity : ℚ) (level : String) : ℤ :=
  Int.tmod ⌊moodIndex + crampSeverity + moodSwingLevelScore level⌋ 8

/-- Embedding of `generateQ4Prediction`: look the index up in the
predictions array (an out-of-bounds lookup would be the JavaScript
undefined). -/
def generateQ4Prediction (moodIndex crampSeverity : ℚ) (level : String) : String :=
  q4Predictions.getD (generateQ4Prediction_index moodIndex crampSeverity level).toNat
    "undefined"

end CycleAwareWNBA

namespace CycleAwareWNBA

/-- Helper: one-decimal rounding respects an integer lower bound. -/
theorem le_roundTo1 {x : ℚ} {n : ℤ} (h : (n : ℚ) ≤ x) : (n : ℚ) ≤ roundTo1 x := by
  unfold roundTo1
  rw [le_div_iff₀ (by norm_num : (0 : ℚ) < 10)]
  have hfl : (n * 10 : ℤ) ≤ ⌊x * 10 + 1 / 2⌋ := Int.le_floor.mpr (by push_cast; linarith)
  exact_mod_cast hfl

/-- Helper: one-decimal rounding respects an integer upper bound. -/
theorem roundTo1_le {x : ℚ} {n : ℤ} (h : x ≤ (n : ℚ)) : roundTo1 x ≤ (n : ℚ) := by
  unfold roundTo1
  rw [div_le_iff₀ (by norm_num : (0 : ℚ) < 10)]
  have hfl : ⌊x * 10 + 1 / 2⌋ < n * 10 + 1 := Int.floor_lt.mpr (by push_cast; linarith)
  have hle : ⌊x * 10 + 1 / 2⌋ ≤ n * 10 := by omega
  exact_mod_cast hle

/-! ## Theorems for claims C1, C6, C2 -/

/-- C1: for every input record, the ensemble probability returned by
`predict_ensemble` is the unweighted average of the Lasso probability and
the random-forest probability, and both component probabilities are the two
models evaluated on the same prepared feature row. -/
theorem predict_ensemble_unweighted_average {δ φ : Type}
    (model : EnsembleModel φ) (prepare_cycle_features : δ → List φ) (newdata : δ)
    (i : ℕ) (h : i < (prepare_cycle_features newdata).length)
    (h2 : i < (predict_ensemble model prepare_cycle_features newdata).length) :
    (predict_ensemble model prepare_cycle_features newdata)[i].ensemble_probability =
      ((predict_ensemble model prepare_cycle_features newdata)[i].lasso_probability +
       (predict_ensemble model prepare_cycle_features newdata)[i].rf_probability) / 2 ∧
    (predict_ensemble model prepare_cycle_features newdata)[i].lasso_probability =
      model.lasso (prepare_cycle_features newdata)[i] ∧
    (predict_ensemble model prepare_cycle_features newdata)[i].rf_probability =
      model.rf (prepare_cycle_features newdata)[i] := by
  simp [predict_ensemble]

/-- Witness for C1 at a concrete model and record. -/
theorem predict_ensemble_unweighted_average_witness :
    (predict_ensemble (δ := Unit) (φ := Unit)
        { lasso := fun _ => 1 / 4, rf := fun _ => 3 / 4 } (fun _ => [()]) ())[0].ensemble_probability =
      ((predict_ensemble (δ := Unit) (φ := Unit)
        { lasso := fun _ => 1 / 4, rf := fun _ => 3 / 4 } (fun _ => [()]) ())[0].lasso_probability +
       (predict_ensemble (δ := Unit) (φ := Unit)
        { lasso := fun _ => 1 / 4, rf := fun _ => 3 / 4 } (fun _ => [()]) ())[0].rf_probability) / 2 ∧
    (predict_ensemble (δ := Unit) (φ := Unit)
        { lasso := fun _ => 1 / 4, rf := fun _ => 3 / 4 } (fun _ => [()]) ())[0].lasso_probability =
      (1 / 4 : ℚ) ∧
    (predict_ensemble (δ := Unit) (φ := Unit)
        { lasso := fun _ => 1 / 4, rf := fun _ => 3 / 4 } (fun _ => [()]) ())[0].rf_probability =
      (3 / 4 : ℚ) :=
  predict_ensemble_unweighted_average
    { lasso := fun _ => 1 / 4, rf := fun _ => 3 / 4 } (fun _ => [()]) () 0
    (by decide) (by decide)

/-- C6: the column check of `predict_cycle_phase` succeeds exactly when all
four required columns are present, and on failure the thrown message lists
precisely the missing required columns. -/
theorem predict_cycle_phase_check_missing_columns (colnames : List String) :
    (predict_cycle_phase_check colnames = Except.ok () ↔
      ∀ c ∈ required_cols, c ∈ colnames) ∧
    (∀ e, predict_cycle_phase_check colnames = Except.error e →
      (¬ ∀ c ∈ required_cols, c ∈ colnames) ∧
      (required_cols.filter (fun c => decide (c ∉ colnames))) ≠ [] ∧
      e = "Missing required columns in athlete_data: "
        ++ String.intercalate ", "
            (required_cols.filter (fun c => decide (c ∉ colnames)))) := by
  by_cases hall : ∀ c ∈ required_cols, c ∈ colnames
  · refine ⟨by simp [predict_cycle_phase_check, List.all_eq_true, hall], ?_⟩
    intro e he
    rw [predict_cycle_phase_check, if_pos (by simpa [List.all_eq_true] using hall)] at he
    exact Except.noConfusion he
  · have hcond : ¬ (required_cols.all (fun c => decide (c ∈ colnames))) = true := by
      simpa [List.all_eq_true] using hall
    have hval : predict_cycle_phase_check colnames = Except.error
        ("Missing required columns in athlete_data: "
          ++ String.intercalate ", "
              (required_cols.filter (fun c => decide (c ∉ colnames)))) := by
      rw [predict_cycle_phase_check, if_neg hcond]
    refine ⟨⟨fun he => ?_, fun h => absurd h hall⟩, fun e he => ?_⟩
    · rw [hval] at he; exact Except.noConfusion he
    · rw [hval] at he
      obtain ⟨c, hc1, hc2⟩ : ∃ x ∈ required_cols, x ∉ colnames := by
        simpa [List.all_eq_true] using hall
      refine ⟨hall, ?_, ?_⟩
      · intro hnil
        have hmem : c ∈ required_cols.filter (fun c => decide (c ∉ colnames)) := by
          simp [List.mem_filter, hc1, hc2]
        rw [hnil] at hmem
        exact absurd hmem (List.not_mem_nil c)
      · exact ((Except.error.injEq _ _).mp he).symm

/-- Witness for C6 at a concrete column list lacking three required
columns: the check throws, and the message names exactly the three missing
columns. -/
theorem predict_cycle_phase_check_missing_columns_witness :
    (¬ ∀ c ∈ required_cols, c ∈ (["athlete_id"] : List String)) ∧
    (required_cols.filter (fun c => decide (c ∉ (["athlete_id"] : List String)))) ≠ [] ∧
    "Missing required columns in athlete_data: game_date, cycle_day, menstrual_phase" =
      "Missing required columns in athlete_data: "
        ++ String.intercalate ", "
            (required_cols.filter (fun c => decide (c ∉ (["athlete_id"] : List String)))) :=
  (predict_cycle_phase_check_missing_columns ["athlete_id"]).2
    "Missing required columns in athlete_data: game_date, cycle_day, menstrual_phase"
    rfl

/-- C2 counterexample: at cycle day 29, `getStage` assigns the fallback
stage named Unknown, which is none of the four phase values, and the
rule-based routine of predict_cycle_phase.R assigns the fifth value
irregular. -/
theorem cycle_phase_fifth_value_counterexample :
    (getStage 29).name = "Unknown" ∧
    "Unknown" ∉ (["Menstruation", "Follicular", "Ovulation", "Luteal"] : List String) ∧
    ruleBasedPhase (some 29) = "irregular" ∧
    "irregular" ∉ (["menstrual", "follicular", "ovulatory", "luteal"] : List String) := by
  decide

/-- C2 amended: for cycle days inside the modelled 28-day cycle the
assignment is by fixed day-count thresholds into the four phases: `getStage`
yields one of the four stage names for days 1..28, the rule-based routine
yields one of the four lowercase phases whenever `days_since_period` is at
most 28, and `Ovulytics.determineCyclePhase` always yields one of its three
labels (it never returns a menstrual label). -/
theorem cycle_phase_thresholds_in_range (d e : ℤ) (c : Option ℤ)
    (h1 : 1 ≤ d) (h2 : d ≤ 28) (hc : c.getD 28 ≤ 28) :
    (getStage d).name ∈ (["Menstruation", "Follicular", "Ovulation", "Luteal"] : List String) ∧
    ruleBasedPhase c ∈ (["menstrual", "follicular", "ovulatory", "luteal"] : List String) ∧
    Ovulytics.determineCyclePhase e ∈ (["follicular", "ovulation", "luteal"] : List String) := by
  refine ⟨?_, ?_, ?_⟩
  · interval_cases d <;> decide
  · simp only [ruleBasedPhase]
    split_ifs <;> decide
  · unfold Ovulytics.determineCyclePhase
    split_ifs <;> decide

/-- Witness for C2 amended at day 14, phase input day 20. -/
theorem cycle_phase_thresholds_in_range_witness :
    (getStage 14).name ∈ (["Menstruation", "Follicular", "Ovulation", "Luteal"] : List String) ∧
    ruleBasedPhase (some 20) ∈ (["menstrual", "follicular", "ovulatory", "luteal"] : List String) ∧
    Ovulytics.determineCyclePhase 3 ∈ (["follicular", "ovulation", "luteal"] : List String) :=
  cycle_phase_thresholds_in_range 14 3 (some 20) (by decide) (by decide) (by decide)

/-! ## Theorems for claims C4, C3 -/

/-- C4 counterexample: in R/feature_engineering.R, with game_date 30 days
after cycle_start_date and menstruation_duration 28, the engineered
cycle_day is the plain difference 30, which is neither the difference
reduced modulo 28 nor inside the half-open interval `[0, 28)`. -/
theorem cycle_day_fe_no_modulo_counterexample :
    cycle_day_fe 30 0 = 30 ∧
    cycle_day_fe 30 0 ≠ (30 - 0) % 28 ∧
    ¬ cycle_day_fe 30 0 < 28 := by
  decide

/-- C4 amended: in the modular pipeline variants the engineered cycle_day
is the day difference reduced modulo menstruation_duration and lies in
`[0, menstruation_duration)` whenever the duration is positive; the
R/feature_engineering.R variant instead produces the unreduced day
difference. -/
theorem cycle_day_mod_in_range (game_date cycle_start menstruation_duration : ℤ)
    (hdur : 0 < menstruation_duration) :
    cycle_day_mod game_date cycle_start menstruation_duration =
      (game_date - cycle_start) % menstruation_duration ∧
    0 ≤ cycle_day_mod game_date cycle_start menstruation_duration ∧
    cycle_day_mod game_date cycle_start menstruation_duration < menstruation_duration ∧
    cycle_day_fe game_date cycle_start = game_date - cycle_start :=
  ⟨rfl, Int.emod_nonneg _ (ne_of_gt hdur), Int.emod_lt_of_pos _ hdur, rfl⟩

/-- Witness for C4 amended at a 30-day difference and a 28-day duration. -/
theorem cycle_day_mod_in_range_witness :
    cycle_day_mod 30 0 28 = (30 - 0) % 28 ∧
    0 ≤ cycle_day_mod 30 0 28 ∧
    cycle_day_mod 30 0 28 < 28 ∧
    cycle_day_fe 30 0 = 30 - 0 :=
  cycle_day_mod_in_range 30 0 28 (by decide)

/-- C3 counterexample: on the demonstration column the
R/feature_engineering.R imputation fills the missing value with the
non-missing median 0, not with the non-missing mean 1, so the claim that
every missing value is replaced by the column mean fails on that variant. -/
theorem impute_median_not_mean_counterexample :
    impute_median demo_column = [0, 0, 3, 0] ∧
    median_narm demo_column = 0 ∧
    mean_narm demo_column = 1 ∧
    impute_median demo_column ≠ impute_mean demo_column := by
  have hmed : median_narm demo_column = 0 := by
    norm_num [median_narm, demo_column, List.filterMap, List.insertionSort,
      List.orderedInsert]
  have hmean : mean_narm demo_column = 1 := by
    norm_num [mean_narm, demo_column, List.filterMap]
  refine ⟨?_, hmed, hmean, ?_⟩
  · simp only [impute_median, hmed]
    rfl
  · simp only [impute_median, impute_mean, hmed, hmean]
    decide

/-- C3 amended: the modular-variant imputation replaces every missing entry
of a column by the mean of the column's non-missing values and leaves every
non-missing entry unchanged; the R/feature_engineering.R variant does the
same with the median of the non-missing values instead of the mean. -/
theorem imputation_pointwise_spec (xs : List (Option ℚ)) (i : ℕ) (h : i < xs.length) :
    (impute_mean xs).length = xs.length ∧
    (impute_median xs).length = xs.length ∧
    (∀ v, xs.get ⟨i, h⟩ = some v →
      (impute_mean xs).getD i 0 = v ∧ (impute_median xs).getD i 0 = v) ∧
    (xs.get ⟨i, h⟩ = none →
      (impute_mean xs).getD i 0 = mean_narm xs ∧
      (impute_median xs).getD i 0 = median_narm xs) := by
  refine ⟨by simp [impute_mean], by simp [impute_median], ?_, ?_⟩
  · intro v hv
    rw [List.get_eq_getElem] at hv
    constructor <;>
      simp [impute_mean, impute_median, List.getD_eq_getElem?_getD,
        List.getElem?_map, List.getElem?_eq_getElem h, hv]
  · intro hv
    rw [List.get_eq_getElem] at hv
    constructor <;>
      simp [impute_mean, impute_median, List.getD_eq_getElem?_getD,
        List.getElem?_map, List.getElem?_eq_getElem h, hv]

/-! ## Theorems for claim C5 -/

/-- Helper: specification of the lag worker, given that the accumulator
records the hrv of the row processed immediately before under its player id
and holds nothing for any strictly later player id. -/
theorem lagged_hrv_aux_spec (rest : List GameRow) :
    ∀ (a : GameRow) (last : ℕ → Option ℚ),
      List.Chain' rowOrder (a :: rest) →
      last a.player_id = some a.hrv →
      (∀ p, a.player_id < p → last p = none) →
      ∀ i, i < rest.length →
        (lagged_hrv_aux rest last).getD i none =
          (if ((a :: rest).getD i default).player_id = (rest.getD i default).player_id
           then some (((a :: rest).getD i default).hrv) else none) := by
  induction rest with
  | nil => intro a last _ _ _ i hi; simp at hi
  | cons b rest' ih =>
    intro a last hch hla hgt i hi
    have hab : rowOrder a b := (List.chain'_cons.mp hch).1
    have hble : a.player_id ≤ b.player_id := by
      rcases hab with h | ⟨h, _⟩ <;> omega
    cases i with
    | zero =>
      show (last b.player_id :: lagged_hrv_aux rest' (updateLast last b)).getD 0 none = _
      rcases eq_or_ne a.player_id b.player_id with heq | hne
      · simp only [List.getD_cons_zero]
        rw [if_pos heq, ← heq, hla]
      · have hlt : a.player_id < b.player_id := lt_of_le_of_ne hble hne
        simp only [List.getD_cons_zero]
        rw [if_neg hne, hgt _ hlt]
    | succ j =>
      have h1 : updateLast last b b.player_id = some b.hrv := by simp [updateLast]
      have h2 : ∀ p, b.player_id < p → updateLast last b p = none := by
        intro p hp
        have hpa : a.player_id < p := lt_of_le_of_lt hble hp
        simp only [updateLast]
        rw [if_neg (by omega), hgt p hpa]
      have hch' : List.Chain' rowOrder (b :: rest') := (List.chain'_cons.mp hch).2
      have hj : j < rest'.length := by simpa using hi
      have hspec := ih b (updateLast last b) hch' h1 h2 j hj
      simpa [lagged_hrv_aux, List.getD_cons_succ] using hspec

/-- C5 counterexample: in R/feature_engineering.R, for a player whose hrv
series over three games is 10, 20, 40, the engineered lagged value is a
3-game rolling mean, so it is missing at the second game instead of
equalling the previous hrv 10, and the third value is the mean 70/3
rather than 20. -/
theorem lagged_HRV_rollmean_counterexample :
    lagged_HRV_roll demo_hrv = [none, none, some (70 / 3)] ∧
    (lagged_HRV_roll demo_hrv).getD 1 none = none ∧
    demo_hrv.getD 0 0 = 10 ∧
    (lagged_HRV_roll demo_hrv).getD 1 none ≠ some (demo_hrv.getD 0 0) := by
  refine ⟨?_, by decide, by decide, by decide⟩
  norm_num [lagged_HRV_roll, demo_hrv, List.range_succ]

/-- C5 amended: in the modular variants, on rows ordered by player then
game date, the lagged hrv of each row is the hrv of the same player's
immediately preceding row, and it is missing on the first row of each
player (in particular on the very first row); the R/feature_engineering.R
variant instead computes a right-aligned 3-game rolling mean. -/
theorem lagged_hrv_one_step_lag (rows : List GameRow)
    (hs : List.Chain' rowOrder rows) (i : ℕ) (hi : i < rows.length) :
    (lagged_hrv rows).getD i none =
      (if i = 0 then none
       else if (rows.getD (i - 1) default).player_id = (rows.getD i default).player_id
       then some ((rows.getD (i - 1) default).hrv) else none) := by
  cases rows with
  | nil => simp at hi
  | cons r rest =>
    cases i with
    | zero => simp [lagged_hrv, lagged_hrv_aux]
    | succ j =>
      have h1 : updateLast (fun _ => none) r r.player_id = some r.hrv := by
        simp [updateLast]
      have h2 : ∀ p, r.player_id < p → updateLast (fun _ => none) r p = none := by
        intro p hp
        simp only [updateLast]
        rw [if_neg (by omega)]
      have hj : j < rest.length := by simpa using hi
      have hspec := lagged_hrv_aux_spec rest r (updateLast (fun _ => none) r) hs h1 h2 j hj
      simpa [lagged_hrv, lagged_hrv_aux, List.getD_cons_succ] using hspec

/-- Witness for C5 amended at the second row of the demonstration rows. -/
theorem lagged_hrv_one_step_lag_witness :
    (lagged_hrv demo_rows).getD 1 none =
      (if 1 = 0 then none
       else if (demo_rows.getD 0 default).player_id = (demo_rows.getD 1 default).player_id
       then some ((demo_rows.getD 0 default).hrv) else none) :=
  lagged_hrv_one_step_lag demo_rows
    (by norm_num [demo_rows, List.chain'_cons, rowOrder]) 1 (by decide)

/-- Witness for C3 amended on the demonstration column at its missing
entry: the missing value is filled with the respective column statistic. -/
theorem imputation_pointwise_spec_witness :
    (impute_mean demo_column).getD 3 0 = mean_narm demo_column ∧
    (impute_median demo_column).getD 3 0 = median_narm demo_column :=
  (imputation_pointwise_spec demo_column 3 (by decide)).2.2.2 (by decide)

/-! ## Theorems for claims C7, C8, C9, C10 -/

/-- C7: for every outcome of the internal pseudo-random draws and any game
date, the mood index returned by `MoodMeeter.analyzeMood` lies in the
closed interval `[1, 10]`. -/
theorem analyzeMood_moodIndex_in_range (r1 r2 : ℚ) (isWeekend : Bool) :
    1 ≤ MoodMeeter.analyzeMood_moodIndex r1 r2 isWeekend ∧
    MoodMeeter.analyzeMood_moodIndex r1 r2 isWeekend ≤ 10 := by
  unfold MoodMeeter.analyzeMood_moodIndex
  set x := MoodMeeter.generateSatiricalMoodScore r1 *
    MoodMeeter.analyzeSatiricalSocialMedia r2 *
    MoodMeeter.calculateGamePressure isWeekend with hx
  constructor
  · have h1 : ((1 : ℤ) : ℚ) ≤ min 10 (max 1 x) := by
      exact_mod_cast le_min (by norm_num) (le_max_left (1 : ℚ) x)
    simpa using le_roundTo1 h1
  · have h2 : min 10 (max 1 x) ≤ ((10 : ℤ) : ℚ) := by
      exact_mod_cast min_le_left (10 : ℚ) (max 1 x)
    simpa using roundTo1_le h2

/-- C8: for every outcome of the internal pseudo-random draws (each in
`[0, 1)`) and any day of week, the probability returned by
`CrampCast.predictCramps` lies in the closed interval `[0, 100]`. -/
theorem predictCramps_probability_in_range
    (day : ℕ) (h1 h2 h3 a1 s1 s2 rc1 rc2 : ℚ)
    (_hd1 : 0 ≤ h1 ∧ h1 < 1) (_hd2 : 0 ≤ h2 ∧ h2 < 1) (_hd3 : 0 ≤ h3 ∧ h3 < 1)
    (hda : 0 ≤ a1 ∧ a1 < 1) (_hds1 : 0 ≤ s1 ∧ s1 < 1) (_hds2 : 0 ≤ s2 ∧ s2 < 1)
    (hdr1 : 0 ≤ rc1 ∧ rc1 < 1) (hdr2 : 0 ≤ rc2 ∧ rc2 < 1) :
    0 ≤ CrampCast.predictCramps_probability day h1 h2 h3 a1 s1 s2 rc1 rc2 ∧
    CrampCast.predictCramps_probability day h1 h2 h3 a1 s1 s2 rc1 rc2 ≤ 100 := by
  have hhyd0 : 0 ≤ CrampCast.assessSatiricalHydration h1 h2 h3 :=
    le_max_left 0 _
  have hhyd1 : CrampCast.assessSatiricalHydration h1 h2 h3 ≤ 1 := by
    unfold CrampCast.assessSatiricalHydration
    exact max_le (by norm_num) (min_le_left _ _)
  have hact : 0 ≤ CrampCast.calculateActivityImpact day a1 := by
    unfold CrampCast.calculateActivityImpact
    have hti : (0 : ℚ) ≤ 1 / 2 + a1 * (1 / 2) := by linarith [hda.1]
    split_ifs <;> exact mul_nonneg (by norm_num) hti
  have hstress : 0 ≤ CrampCast.assessGameStress s1 s2 := by
    unfold CrampCast.assessGameStress
    refine le_min (by norm_num) ?_
    split_ifs <;> norm_num
  have hrec : CrampCast.calculateRecoveryFactor rc1 rc2 ≤ 1 := by
    unfold CrampCast.calculateRecoveryFactor
    rw [div_le_one (by norm_num : (0 : ℚ) < 6 / 5)]
    have hsleep : 3 / 5 + rc1 * (2 / 5) ≤ 1 := by linarith [hdr1.2]
    have hfl : ⌊rc2 * 3⌋ < 3 := Int.floor_lt.mpr (by push_cast; linarith [hdr2.2])
    have hnat : ((⌊rc2 * 3⌋).toNat : ℚ) ≤ 2 := by
      have hn : (⌊rc2 * 3⌋).toNat ≤ 2 := by omega
      exact_mod_cast hn
    linarith
  have hsum : 0 ≤ (1 - CrampCast.assessSatiricalHydration h1 h2 h3) * (3 / 10) +
      CrampCast.calculateActivityImpact day a1 * (2 / 5) +
      CrampCast.assessGameStress s1 s2 * (1 / 5) +
      (1 - CrampCast.calculateRecoveryFactor rc1 rc2) * (1 / 10) := by
    have t1 : 0 ≤ (1 - CrampCast.assessSatiricalHydration h1 h2 h3) * (3 / 10) :=
      mul_nonneg (by linarith) (by norm_num)
    have t2 : 0 ≤ CrampCast.calculateActivityImpact day a1 * (2 / 5) :=
      mul_nonneg hact (by norm_num)
    have t3 : 0 ≤ CrampCast.assessGameStress s1 s2 * (1 / 5) :=
      mul_nonneg hstress (by norm_num)
    have t4 : 0 ≤ (1 - CrampCast.calculateRecoveryFactor rc1 rc2) * (1 / 10) :=
      mul_nonneg (by linarith) (by norm_num)
    linarith
  have hp0 : 0 ≤ CrampCast.calculateCrampProbability
      (CrampCast.assessSatiricalHydration h1 h2 h3)
      (CrampCast.calculateActivityImpact day a1) (CrampCast.assessGameStress s1 s2)
      (CrampCast.calculateRecoveryFactor rc1 rc2) := by
    unfold CrampCast.calculateCrampProbability
    exact le_min (by norm_num) hsum
  have hp1 : CrampCast.calculateCrampProbability
      (CrampCast.assessSatiricalHydration h1 h2 h3)
      (CrampCast.calculateActivityImpact day a1) (CrampCast.assessGameStress s1 s2)
      (CrampCast.calculateRecoveryFactor rc1 rc2) ≤ 1 := min_le_left _ _
  unfold CrampCast.predictCramps_probability
  constructor
  · have hlow : ((0 : ℤ) : ℚ) ≤ CrampCast.calculateCrampProbability
        (CrampCast.assessSatiricalHydration h1 h2 h3)
        (CrampCast.calculateActivityImpact day a1) (CrampCast.assessGameStress s1 s2)
        (CrampCast.calculateRecoveryFactor rc1 rc2) * 100 := by
      push_cast
      nlinarith [hp0]
    simpa using le_roundTo1 hlow
  · have hhigh : CrampCast.calculateCrampProbability
        (CrampCast.assessSatiricalHydration h1 h2 h3)
        (CrampCast.calculateActivityImpact day a1) (CrampCast.assessGameStress s1 s2)
        (CrampCast.calculateRecoveryFactor rc1 rc2) * 100 ≤ ((100 : ℤ) : ℚ) := by
      push_cast
      linarith [hp1]
    simpa using roundTo1_le hhigh

/-- Witness for C8 with every pseudo-random draw equal to 0 on a Monday. -/
theorem predictCramps_probability_in_range_witness :
    0 ≤ CrampCast.predictCramps_probability 1 0 0 0 0 0 0 0 0 ∧
    CrampCast.predictCramps_probability 1 0 0 0 0 0 0 0 0 ≤ 100 :=
  predictCramps_probability_in_range 1 0 0 0 0 0 0 0 0
    (by norm_num) (by norm_num) (by norm_num) (by norm_num)
    (by norm_num) (by norm_num) (by norm_num) (by norm_num)

/-- C9: whenever the mood index is at least 1 and the cramp severity is at
least 1, the array index computed by `generateQ4Prediction` lies within the
bounds 0..7 of the predictions array, so the function returns one of its
eight fixed prediction strings. -/
theorem generateQ4Prediction_index_in_bounds (m c : ℚ) (level : String)
    (hm : 1 ≤ m) (hc : 1 ≤ c) :
    0 ≤ generateQ4Prediction_index m c level ∧
    generateQ4Prediction_index m c level < 8 ∧
    generateQ4Prediction m c level ∈ q4Predictions := by
  have hscore : (1 : ℚ) ≤ moodSwingLevelScore level := by
    unfold moodSwingLevelScore
    split_ifs <;> norm_num
  have hsum : (0 : ℚ) ≤ m + c + moodSwingLevelScore level := by linarith
  have hfl : 0 ≤ ⌊m + c + moodSwingLevelScore level⌋ := Int.floor_nonneg.mpr hsum
  have h0 : 0 ≤ generateQ4Prediction_index m c level := Int.tmod_nonneg 8 hfl
  have h8 : generateQ4Prediction_index m c level < 8 :=
    Int.tmod_lt_of_pos _ (by norm_num)
  refine ⟨h0, h8, ?_⟩
  have hlen : (generateQ4Prediction_index m c level).toNat < q4Predictions.length := by
    have hq : q4Predictions.length = 8 := by decide
    omega
  rw [generateQ4Prediction, List.getD_eq_getElem _ _ hlen]
  exact List.getElem_mem hlen

/-- Witness for C9 at mood index 1, severity 1, level Stable. -/
theorem generateQ4Prediction_index_in_bounds_witness :
    0 ≤ generateQ4Prediction_index 1 1 "Stable" ∧
    generateQ4Prediction_index 1 1 "Stable" < 8 ∧
    generateQ4Prediction 1 1 "Stable" ∈ q4Predictions :=
  generateQ4Prediction_index_in_bounds 1 1 "Stable" (by norm_num) (by norm_num)

/-- C10: the five MoodSwingMeter factor weights sum to exactly 1; for
factor values each in `[0, 1]` the volatility score lies in `[0, 1]` and
`determineSwingLevel` sends it to one of the three levels. -/
theorem calculateVolatilityScore_level (sleep social schedule nutrition weather : ℚ)
    (hb1 : 0 ≤ sleep ∧ sleep ≤ 1) (hb2 : 0 ≤ social ∧ social ≤ 1)
    (hb3 : 0 ≤ schedule ∧ schedule ≤ 1) (hb4 : 0 ≤ nutrition ∧ nutrition ≤ 1)
    (hb5 : 0 ≤ weather ∧ weather ≤ 1) :
    MoodSwingMeter.moodSwingFactorWeights.sum = 1 ∧
    0 ≤ MoodSwingMeter.calculateVolatilityScore sleep social schedule nutrition weather ∧
    MoodSwingMeter.calculateVolatilityScore sleep social schedule nutrition weather ≤ 1 ∧
    MoodSwingMeter.determineSwingLevel
      (MoodSwingMeter.calculateVolatilityScore sleep social schedule nutrition weather) ∈
      (["Stable", "Moderate", "Turbulent"] : List String) := by
  refine ⟨by norm_num [MoodSwingMeter.moodSwingFactorWeights], ?_,
    min_le_left _ _, ?_⟩
  · unfold MoodSwingMeter.calculateVolatilityScore
    refine le_min (by norm_num) ?_
    have t1 : 0 ≤ sleep * (3 / 10) := mul_nonneg hb1.1 (by norm_num)
    have t2 : 0 ≤ social * (1 / 4) := mul_nonneg hb2.1 (by norm_num)
    have t3 : 0 ≤ schedule * (1 / 5) := mul_nonneg hb3.1 (by norm_num)
    have t4 : 0 ≤ nutrition * (3 / 20) := mul_nonneg hb4.1 (by norm_num)
    have t5 : 0 ≤ weather * (1 / 10) := mul_nonneg hb5.1 (by norm_num)
    linarith
  · unfold MoodSwingMeter.determineSwingLevel
    split_ifs <;> decide

/-- Witness for C10 with every factor value equal to 0. -/
theorem calculateVolatilityScore_level_witness :
    MoodSwingMeter.moodSwingFactorWeights.sum = 1 ∧
    0 ≤ MoodSwingMeter.calculateVolatilityScore 0 0 0 0 0 ∧
    MoodSwingMeter.calculateVolatilityScore 0 0 0 0 0 ≤ 1 ∧
    MoodSwingMeter.determineSwingLevel (MoodSwingMeter.calculateVolatilityScore 0 0 0 0 0) ∈
      (["Stable", "Moderate", "Turbulent"] : List String) :=
  calculateVolatilityScore_level 0 0 0 0 0
    (by norm_num) (by norm_num) (by norm_num) (by norm_num) (by norm_num)

end CycleAwareWNBA
